import Mathlib

/-!
Verification of the MySQL frontend connection handler
(`frontends/mysqlfe/mysql_handler.go`) of the dataux query-federation
server.  The handler's data model and control flow are embedded
shallowly: collaborator calls (the planner `BuildMySqlJob`, the job's
`Finalize`/`Run`, the transport's `WriteOK` and `Close`) are modelled by
explicit outcome parameters, and the observable effects of one request
(returned error, handler-state change, number of `job.Close()` calls,
whether an OK packet was written, which result writer was selected) are
collected in a result record.
-/

namespace Mysqlfe

/-- A Go `error` value as the handler produces it: either a plain
`fmt.Errorf` string or a `mysql.NewError(code, msg)` protocol error. -/
inductive GoErr where
  | str (msg : String)
  | mysqlErr (code : Nat) (msg : String)
deriving DecidableEq, Repr

/-- Modelled from the spec: a schema is a named backend data source
definition held in the Server Context's registry (the `schema.Schema`
type is an external collaborator; only its identity matters here). -/
structure Schema where
  name : String
deriving DecidableEq, Repr

/-- Modelled from the spec: per-connection session variables
(`NewMySqlSessionVars` lives outside the handler file; the handler never
inspects them, only threads them through). -/
structure SessionVars where
  vars : List (String × String)
deriving DecidableEq, Repr

/-- Modelled from the spec: fresh session variables created by `Open`. -/
def NewMySqlSessionVars : SessionVars := ⟨[]⟩

/-- The client transport (`proxy.Conn`).  Its `Close()` result is the
only thing the handler observes of it, so it is carried as data. -/
structure Conn where
  closeErr : Option GoErr
deriving DecidableEq, Repr

/-- Modelled from the spec: the Server Context (`models.ServerCtx`) is a
process-wide record holding the schema registry (name → Schema) and the
panic-recovery suppression flag read by `handleQuery`. -/
structure ServerCtx where
  schemas : List (String × Schema)
  supressRecover : Bool
deriving DecidableEq, Repr

/-- Modelled from the spec: registry lookup `svr.Schema(db)` — given a
name, returns a schema handle or an absent result; never blocks. -/
def ServerCtx.Schema (svr : ServerCtx) (db : String) : Option Schema :=
  svr.schemas.lookup db

/-- The per-connection `MySqlHandler`: the shared server context
(`MySqlHandlerShared.svr`), session variables, the inbound transport,
and the currently selected schema. -/
structure MySqlHandler where
  svr : ServerCtx
  sess : SessionVars
  conn : Option Conn
  schema : Option Schema
deriving DecidableEq, Repr

/-- The dynamic type of the argument handed to `Open`: either the
expected `*proxy.Conn` or some other type (named by its `%T` string). -/
inductive ConnI where
  | proxyConn (c : Conn)
  | other (tyName : String)
deriving DecidableEq, Repr

/-- Outcome of `Open`: a new per-connection handler, or a runtime panic
(the Go `panic(fmt.Sprintf("not proxy.Conn? %T", connI))`). -/
inductive OpenResult where
  | ok (h : MySqlHandler)
  | panicked (msg : String)
deriving DecidableEq, Repr

/-- The method `Open` clones the handler for a new connection: it shares the
server context, installs fresh session variables, and binds the
transport — or panics when the argument is not a `*proxy.Conn`. -/
def MySqlHandler.Open (m : MySqlHandler) (connI : ConnI) : OpenResult :=
  let handler : MySqlHandler :=
    { svr := m.svr, sess := NewMySqlSessionVars, conn := none, schema := none }
  match connI with
  | .proxyConn c => .ok { handler with conn := some c }
  | .other ty => .panicked ("not proxy.Conn? " ++ ty)

/-- The method `Close` releases the transport if present (returning its close
error) and nils the field; on an already-closed handler it is a no-op
returning no error. -/
def MySqlHandler.Close (m : MySqlHandler) : Option GoErr × MySqlHandler :=
  match m.conn with
  | some c => (c.closeErr, { m with conn := none })
  | none => (none, m)

/-- The method `SchemaUse` looks the name up in the server registry; when found it
becomes the session's active schema, when absent the handler is left
unchanged and `nil` is returned. -/
def MySqlHandler.SchemaUse (m : MySqlHandler) (db : String) :
    Option Schema × MySqlHandler :=
  match m.svr.Schema db with
  | none => (none, m)
  | some s => (some s, { m with schema := some s })

/-! ### Wire-protocol constants

Modelled from the spec: command bytes and error codes are "values fixed
by the emulated wire protocol"; their numeric values come from the
vendored `mixer/mysql` package (standard MySQL protocol values). -/

def COM_QUIT : Nat := 1
def COM_INIT_DB : Nat := 2
def COM_QUERY : Nat := 3
def COM_FIELD_LIST : Nat := 4
def COM_PING : Nat := 14
def COM_STMT_PREPARE : Nat := 22
def ER_WARN_DEPRECATED_SYNTAX : Nat := 1287
def ER_UNKNOWN_ERROR : Nat := 1105

/-- Modelled from the spec: the vendored package's `CommandString`
returns the human-readable name of a command byte. -/
def CommandString (cmd : Nat) : String :=
  if cmd = 0 then "COM_SLEEP"
  else if cmd = COM_QUIT then "COM_QUIT"
  else if cmd = COM_INIT_DB then "COM_INIT_DB"
  else if cmd = COM_QUERY then "COM_QUERY"
  else if cmd = COM_FIELD_LIST then "COM_FIELD_LIST"
  else if cmd = COM_PING then "COM_PING"
  else if cmd = COM_STMT_PREPARE then "COM_STMT_PREPARE"
  else "COM_UNKNOWN"

/-- Go `string(bytes)`: the request payload bytes read as text. -/
def bytesToString (bs : List Nat) : String :=
  ⟨bs.map Char.ofNat⟩

/-- Go `strings.ToLower` restricted to the ASCII range the handler's
`"set "` check needs. -/
def goToLower (s : String) : String :=
  ⟨s.data.map Char.toLower⟩

/-- Go `strings.HasPrefix`. -/
def goStartsWith (s pre : String) : Bool :=
  pre.data.isPrefixOf s.data

/-- The parsed statement kind held by `job.Ctx.Stmt`, as the type switch
in `handleQuery` distinguishes it (`other` carries the `%T` type name of
an unhandled statement type). -/
inductive Stmt where
  | select
  | show
  | describe
  | insert
  | upsert
  | update
  | delete
  | command
  | other (tyName : String)
deriving DecidableEq, Repr

/-- Which result-writer constructor the type switch selects. -/
inductive WriterKind where
  | resultWriter
  | schemaWriter
  | execResultWriter
deriving DecidableEq, Repr

/-- Statement kinds for which a result writer is constructed and the
Finalize/Run/Close sequence is entered (everything except the
`SqlCommand` immediate-OK case and the unsupported default case). -/
def Stmt.usesWriter : Stmt → Bool
  | .command => false
  | .other _ => false
  | _ => true

/-- The writer the type switch picks for a writer-using statement. -/
def Stmt.writerKind : Stmt → Option WriterKind
  | .select => some .resultWriter
  | .show => some .schemaWriter
  | .describe => some .schemaWriter
  | .insert => some .execResultWriter
  | .upsert => some .execResultWriter
  | .update => some .execResultWriter
  | .delete => some .execResultWriter
  | .command => none
  | .other _ => none

/-- Outcome of the planner call `BuildMySqlJob(m.svr, ctx)`: an error, a
`nil` job with no error ("already handled"), or a job carrying its
statement kind and the outcomes its `Finalize` and `Run` calls would
produce. -/
inductive BuildOutcome where
  | buildErr (e : GoErr)
  | handled
  | job (stmt : Stmt) (finalizeErr : Option GoErr) (runErr : Option GoErr)
deriving DecidableEq, Repr

/-- Collaborator outcomes for one request: the planner's result and the
result of `conn.WriteOK(nil)` should it be called. -/
structure QueryEnv where
  build : BuildOutcome
  writeOKErr : Option GoErr
deriving DecidableEq, Repr

/-- Observable effects of one dispatched request: the returned error,
the handler state afterwards, how many times `job.Close()` ran, whether
an OK packet was written, and the selected result writer (if any). -/
structure HandleResult where
  err : Option GoErr
  handler : MySqlHandler
  jobCloseCalls : Nat
  wroteOK : Bool
  writer : Option WriterKind
deriving DecidableEq, Repr

/-- The query pipeline `handleQuery`: require an active schema, ask the
planner for a job, apply the `set `-prefix fallback on plan errors,
select a writer by statement kind, then Finalize, Run, and Close. -/
def handleQuery (m : MySqlHandler) (env : QueryEnv) (sql : String) :
    HandleResult :=
  if m.schema = none then
    ⟨some (.str "no schema in use"), m, 0, false, none⟩
  else
    match env.build with
    | .buildErr e =>
      if goStartsWith (goToLower sql) "set " then
        ⟨env.writeOKErr, m, 0, true, none⟩
      else
        ⟨some e, m, 0, false, none⟩
    | .handled => ⟨none, m, 0, false, none⟩
    | .job stmt finalizeErr runErr =>
      match stmt.writerKind with
      | none =>
        match stmt with
        | .command => ⟨env.writeOKErr, m, 0, true, none⟩
        | _ =>
          ⟨some (.str ("statement type " ++
            (match stmt with | .other ty => ty | _ => "") ++
            " not supported")), m, 0, false, none⟩
      | some wk =>
        match finalizeErr with
        | some e => ⟨some e, m, 0, false, some wk⟩
        | none => ⟨runErr, m, 1, false, some wk⟩

/-- Whether dispatch completed, or faulted on `req.Raw[0]` with an empty
payload (a Go index-out-of-range runtime panic). -/
inductive DispatchResult where
  | fault (msg : String)
  | done (r : HandleResult)
deriving DecidableEq, Repr

def DispatchResult.isDone : DispatchResult → Bool
  | .done _ => true
  | .fault _ => false

/-- Dispatch `chooseCommand`: split the first payload byte off as the command
code and dispatch on it; the remainder of the payload is the statement
text. -/
def chooseCommand (m : MySqlHandler) (env : QueryEnv) (raw : List Nat) :
    DispatchResult :=
  match raw with
  | [] => .fault "index out of range [0] with length 0"
  | cmd :: rest =>
    if cmd = COM_FIELD_LIST then
      .done ⟨some (.mysqlErr ER_WARN_DEPRECATED_SYNTAX
        ("command " ++ Nat.repr cmd ++ ":" ++ CommandString cmd ++
          " is deprecated")), m, 0, false, none⟩
    else if cmd = COM_QUERY ∨ cmd = COM_STMT_PREPARE then
      .done (handleQuery m env (bytesToString rest))
    else if cmd = COM_PING then
      .done ⟨env.writeOKErr, m, 0, true, none⟩
    else if cmd = COM_QUIT then
      .done ⟨none, (m.Close).2, 0, false, none⟩
    else if cmd = COM_INIT_DB then
      match m.SchemaUse (bytesToString rest) with
      | (none, m') =>
        .done ⟨some (.str ("Schema not found " ++ bytesToString rest)),
          m', 0, false, none⟩
      | (some _, m') => .done ⟨env.writeOKErr, m', 0, true, none⟩
    else
      .done ⟨some (.mysqlErr ER_UNKNOWN_ERROR
        ("command " ++ Nat.repr cmd ++ ":" ++ CommandString cmd ++
          " not yet supported")), m, 0, false, none⟩

/-- The method `Handle` simply delegates to `chooseCommand`. -/
def MySqlHandler.Handle (m : MySqlHandler) (env : QueryEnv)
    (raw : List Nat) : DispatchResult :=
  chooseCommand m env raw

/-- Helper `makeBindVars`: map positional arguments to named bind variables
`v1`, `v2`, … (1-indexed), via the loop `for i, v := range args`. -/
def makeBindVars (args : List Int) : List (String × Int) :=
  args.enum.map (fun p => ("v" ++ Nat.repr (p.1 + 1), p.2))

/-! ### Concrete fixtures used by witnesses and counterexamples -/

/-- A registered schema named `db1`. -/
def testSchema : Schema := ⟨"db1"⟩

/-- A handler with `db1` registered and selected, transport attached. -/
def m0 : MySqlHandler :=
  { svr := ⟨[("db1", testSchema)], false⟩, sess := ⟨[]⟩,
    conn := some ⟨none⟩, schema := some testSchema }

/-- A handler on which no `init-db`/`SchemaUse` has succeeded yet. -/
def mNoSchema : MySqlHandler :=
  { svr := ⟨[("db1", testSchema)], false⟩, sess := ⟨[]⟩,
    conn := some ⟨none⟩, schema := none }

/-- A handler whose transport's `Close()` reports an error. -/
def mCloseErr : MySqlHandler :=
  { svr := ⟨[("db1", testSchema)], false⟩, sess := ⟨[]⟩,
    conn := some ⟨some (.str "socket close failed")⟩, schema := some testSchema }

/-- Environment where planning resolves the statement itself. -/
def envOK : QueryEnv := ⟨.handled, none⟩

/-- Environment where the planner fails to parse/plan. -/
def envPlanErr : QueryEnv := ⟨.buildErr (.str "parse fail"), none⟩

/-- Environment where the planner returns a Select job whose `Finalize`
fails (so `Run` is never attempted). -/
def envFinErr : QueryEnv :=
  ⟨.job .select (some (.str "finalize failed")) none, none⟩

/-- Environment where the planner returns a Select job whose `Finalize`
succeeds and whose `Run` fails. -/
def envRunErr : QueryEnv :=
  ⟨.job .select none (some (.str "run failed")), none⟩

/-- The bytes of `"nope"`, a name absent from `m0`'s registry. -/
def restNope : List Nat := [0x6e, 0x6f, 0x70, 0x65]

/-! ## Theorems -/

/-- C1 (counterexample): the planner returned a Job (`envFinErr`), its
`Finalize` errored before `Run` was attempted, and `handleQuery` returned
without ever calling `job.Close()` — so Close is not invoked exactly
once in every such query. -/
theorem handleQuery_finalize_noclose_cex :
    envFinErr.build = .job .select (some (.str "finalize failed")) none ∧
    (handleQuery m0 envFinErr "select a from t").jobCloseCalls = 0 := by
  decide

/-- C1 (amended): when the planner returns a Job, `job.Close()` runs
exactly once iff a result writer was selected for the statement kind and
`Finalize` succeeded — regardless of `Run`'s outcome, whose error is
returned; when `Finalize` fails, or the statement is a session command
or an unsupported kind, Close is never invoked. -/
theorem handleQuery_close_calls (m : MySqlHandler) (env : QueryEnv)
    (sql : String) (stmt : Stmt) (finalizeErr runErr : Option GoErr)
    (hs : m.schema ≠ none)
    (hb : env.build = .job stmt finalizeErr runErr) :
    (handleQuery m env sql).jobCloseCalls =
      (if stmt.usesWriter = true ∧ finalizeErr = none then 1 else 0) ∧
    (stmt.usesWriter = true → finalizeErr = none →
      (handleQuery m env sql).err = runErr) ∧
    (∀ e, finalizeErr = some e → (handleQuery m env sql).jobCloseCalls = 0) := by
  cases hm : m.schema with
  | none => exact absurd hm hs
  | some s =>
    cases stmt <;> cases finalizeErr <;>
      simp [handleQuery, hm, hb, Stmt.usesWriter, Stmt.writerKind]

/-- C1 witness: on a Select job whose Finalize succeeds and whose Run
fails, Close runs exactly once and Run's error is returned. -/
theorem handleQuery_close_calls_witness :
    (handleQuery m0 envRunErr "select a from t").jobCloseCalls = 1 ∧
    (handleQuery m0 envRunErr "select a from t").err =
      some (.str "run failed") := by
  have h := handleQuery_close_calls m0 envRunErr "select a from t"
    .select none (some (.str "run failed")) (by decide) rfl
  refine ⟨?_, h.2.1 rfl rfl⟩
  simpa using h.1

/-- C2 (counterexample): called with a transport that is not a
`proxy.Conn`, `Open` panics instead of returning a typed error value. -/
theorem open_nonconn_panics_cex :
    m0.Open (.other "string") = .panicked "not proxy.Conn? string" := by
  decide

/-- C2 (amended): `Open` with a transport that is not a `proxy.Conn`
aborts via panic (naming the offending type); with a `proxy.Conn` it
returns a fresh handler sharing the server context, with fresh session
variables, the transport bound, and no schema selected. -/
theorem open_behavior (m : MySqlHandler) (ty : String) (c : Conn) :
    m.Open (.other ty) = .panicked ("not proxy.Conn? " ++ ty) ∧
    m.Open (.proxyConn c) =
      .ok { svr := m.svr, sess := NewMySqlSessionVars,
            conn := some c, schema := none } := by
  exact ⟨rfl, rfl⟩

/-- C3: when planning fails with an active schema, a statement whose
lowercased text starts with `"set "` gets an OK reply and the planning
error is not propagated (the result is the `WriteOK` outcome); any other
statement propagates the planning error unchanged. -/
theorem handleQuery_plan_error_set_fallback (m : MySqlHandler)
    (env : QueryEnv) (sql : String) (e : GoErr)
    (hs : m.schema ≠ none) (hb : env.build = .buildErr e) :
    (goStartsWith (goToLower sql) "set " = true →
      handleQuery m env sql = ⟨env.writeOKErr, m, 0, true, none⟩) ∧
    (goStartsWith (goToLower sql) "set " = false →
      handleQuery m env sql = ⟨some e, m, 0, false, none⟩) := by
  cases hm : m.schema with
  | none => exact absurd hm hs
  | some s =>
    constructor <;> intro hp <;> simp [handleQuery, hm, hb, hp]

/-- C3 witness: with a plan error, `SET autocommit = 1` yields OK with
no error, while `select nope` propagates the parse error unchanged. -/
theorem handleQuery_plan_error_set_fallback_witness :
    handleQuery m0 envPlanErr "SET autocommit = 1" =
      ⟨none, m0, 0, true, none⟩ ∧
    handleQuery m0 envPlanErr "select nope" =
      ⟨some (.str "parse fail"), m0, 0, false, none⟩ := by
  have h1 := handleQuery_plan_error_set_fallback m0 envPlanErr
    "SET autocommit = 1" (.str "parse fail") (by decide) rfl
  have h2 := handleQuery_plan_error_set_fallback m0 envPlanErr
    "select nope" (.str "parse fail") (by decide) rfl
  exact ⟨h1.1 (by decide), h2.2 (by decide)⟩

/-- C4: with a name absent from the registry, `SchemaUse` returns `nil`
and leaves the handler (in particular its active schema) unchanged, and
the `init-db` dispatch returns a "Schema not found" error instead of
writing OK. -/
theorem schemaUse_absent (m : MySqlHandler) (env : QueryEnv)
    (rest : List Nat)
    (h : m.svr.Schema (bytesToString rest) = none) :
    m.SchemaUse (bytesToString rest) = (none, m) ∧
    chooseCommand m env (COM_INIT_DB :: rest) =
      .done ⟨some (.str ("Schema not found " ++ bytesToString rest)),
        m, 0, false, none⟩ := by
  have hu : m.SchemaUse (bytesToString rest) = (none, m) := by
    simp [MySqlHandler.SchemaUse, h]
  refine ⟨hu, ?_⟩
  simp [chooseCommand, COM_INIT_DB, COM_FIELD_LIST, COM_QUERY,
    COM_STMT_PREPARE, COM_PING, COM_QUIT, hu]

/-- C4 witness: `init-db` with the unknown name `nope` on `m0` leaves
the handler unchanged and reports "Schema not found nope". -/
theorem schemaUse_absent_witness :
    m0.SchemaUse (bytesToString restNope) = (none, m0) ∧
    chooseCommand m0 envOK (COM_INIT_DB :: restNope) =
      .done ⟨some (.str ("Schema not found " ++ bytesToString restNope)),
        m0, 0, false, none⟩ :=
  schemaUse_absent m0 envOK restNope (by decide)

/-- C5: on a connection with no active schema, both query-bearing
commands (query and prepare) fail with the "no schema in use" error,
whose content differs from every "Schema not found …" error that
`SchemaUse` produces on an unknown name. -/
theorem handleQuery_no_schema (m : MySqlHandler) (env : QueryEnv)
    (rest : List Nat) (h : m.schema = none) :
    (∃ r, chooseCommand m env (COM_QUERY :: rest) = .done r ∧
      r.err = some (.str "no schema in use")) ∧
    (∃ r, chooseCommand m env (COM_STMT_PREPARE :: rest) = .done r ∧
      r.err = some (.str "no schema in use")) ∧
    (∀ db, GoErr.str "no schema in use" ≠
      GoErr.str ("Schema not found " ++ db)) := by
  refine ⟨⟨handleQuery m env (bytesToString rest), ?_, ?_⟩,
    ⟨handleQuery m env (bytesToString rest), ?_, ?_⟩, ?_⟩
  · simp [chooseCommand, COM_QUERY, COM_FIELD_LIST]
  · simp [handleQuery, h]
  · simp [chooseCommand, COM_STMT_PREPARE, COM_FIELD_LIST, COM_QUERY]
  · simp [handleQuery, h]
  · intro db heq
    have hs : "no schema in use" = "Schema not found " ++ db := by
      injection heq
    have hlen := congrArg String.length hs
    rw [String.length_append] at hlen
    have h16 : ("no schema in use").length = 16 := by decide
    have h17 : ("Schema not found ").length = 17 := by decide
    omega

/-- C5 witness: a query on a fresh connection (no schema selected)
fails with "no schema in use". -/
theorem handleQuery_no_schema_witness :
    ∃ r, chooseCommand mNoSchema envOK [COM_QUERY] = .done r ∧
      r.err = some (.str "no schema in use") :=
  (handleQuery_no_schema mNoSchema envOK [] rfl).1

/-- C6: `makeBindVars` is total and pure: on any argument list its
entries are exactly the arguments keyed `v1` … `vn` in order (entry `i`
binds key `v(i+1)` to argument `i`), its key list is exactly
`v1 … vn`, the empty list maps to the empty mapping, and
`makeBindVars [10, 20, 30]` is `{v1 ↦ 10, v2 ↦ 20, v3 ↦ 30}`. -/
theorem makeBindVars_spec (args : List Int) :
    makeBindVars args =
      ((List.range args.length).zip args).map
        (fun p => ("v" ++ Nat.repr (p.1 + 1), p.2)) ∧
    (makeBindVars args).map Prod.fst =
      (List.range args.length).map (fun i => "v" ++ Nat.repr (i + 1)) ∧
    makeBindVars [] = [] ∧
    makeBindVars [10, 20, 30] = [("v1", 10), ("v2", 20), ("v3", 30)] := by
  refine ⟨?_, ?_, rfl, by decide⟩
  · rw [makeBindVars, List.enum_eq_zip_range]
  · calc (makeBindVars args).map Prod.fst
        = (args.enum.map Prod.fst).map (fun i => "v" ++ Nat.repr (i + 1)) := by
          rw [makeBindVars, List.map_map, List.map_map]; rfl
      _ = (List.range args.length).map (fun i => "v" ++ Nat.repr (i + 1)) := by
          rw [List.enum_map_fst]

/-- C7: the first `Close` on a handler holding a transport returns the
transport's close error and clears the transport; calling `Close` again
on the resulting handler releases nothing and returns no error. -/
theorem close_idempotent (m : MySqlHandler) (c : Conn)
    (h : m.conn = some c) :
    (m.Close).1 = c.closeErr ∧
    (m.Close).2.conn = none ∧
    (m.Close).2.Close = (none, (m.Close).2) := by
  simp [MySqlHandler.Close, h]

/-- C7 witness: closing `mCloseErr` surfaces the transport's error once;
a second close is a harmless no-op. -/
theorem close_idempotent_witness :
    (mCloseErr.Close).1 = some (.str "socket close failed") ∧
    (mCloseErr.Close).2.conn = none ∧
    (mCloseErr.Close).2.Close = (none, (mCloseErr.Close).2) :=
  close_idempotent mCloseErr ⟨some (.str "socket close failed")⟩ rfl

/-- C8: every request whose command byte is `COM_FIELD_LIST` is answered
with the fixed deprecated-syntax protocol error, whatever the remaining
payload. -/
theorem field_list_deprecated (m : MySqlHandler) (env : QueryEnv)
    (rest : List Nat) :
    m.Handle env (COM_FIELD_LIST :: rest) =
      .done ⟨some (.mysqlErr ER_WARN_DEPRECATED_SYNTAX
        "command 4:COM_FIELD_LIST is deprecated"), m, 0, false, none⟩ := by
  rfl

/-- C9: any command byte outside {query, prepare, ping, quit, init-db,
field-list} is rejected with the generic error code and a message that
contains both the numeric command value and its human-readable name. -/
theorem unknown_command_error (m : MySqlHandler) (env : QueryEnv)
    (cmd : Nat) (rest : List Nat)
    (h : cmd ∉ [COM_QUERY, COM_STMT_PREPARE, COM_PING, COM_QUIT,
      COM_INIT_DB, COM_FIELD_LIST]) :
    ∃ msg, m.Handle env (cmd :: rest) =
        .done ⟨some (.mysqlErr ER_UNKNOWN_ERROR msg), m, 0, false, none⟩ ∧
      (∃ a b, msg = a ++ Nat.repr cmd ++ b) ∧
      (∃ a b, msg = a ++ CommandString cmd ++ b) := by
  simp only [List.mem_cons, List.not_mem_nil, or_false, not_or] at h
  obtain ⟨h3, h22, h14, h1, h2, h4⟩ := h
  refine ⟨"command " ++ Nat.repr cmd ++ ":" ++ CommandString cmd ++
    " not yet supported", ?_, ?_, ?_⟩
  · simp [MySqlHandler.Handle, chooseCommand, h3, h22, h14, h1, h2, h4]
  · exact ⟨"command ", ":" ++ CommandString cmd ++ " not yet supported",
      by simp [String.append_assoc]⟩
  · exact ⟨"command " ++ Nat.repr cmd ++ ":", " not yet supported",
      by simp [String.append_assoc]⟩

/-- C9 witness: command byte 0 (COM_SLEEP) is rejected with the generic
code and a message naming `0` and `COM_SLEEP`. -/
theorem unknown_command_error_witness :
    ∃ msg, m0.Handle envOK [0] =
        .done ⟨some (.mysqlErr ER_UNKNOWN_ERROR msg), m0, 0, false, none⟩ ∧
      (∃ a b, msg = a ++ Nat.repr 0 ++ b) ∧
      (∃ a b, msg = a ++ CommandString 0 ++ b) :=
  unknown_command_error m0 envOK 0 [] (by decide)

/-- C10: dispatch indexes `req.Raw[0]` without a guard: on an empty
payload it faults (index out of range), while on any non-empty payload
it completes, and for a query command the remainder of the payload is
the statement text handed to `handleQuery`. -/
theorem chooseCommand_payload_guard (m : MySqlHandler) (env : QueryEnv) :
    m.Handle env [] = .fault "index out of range [0] with length 0" ∧
    (∀ cmd rest, (m.Handle env (cmd :: rest)).isDone = true) ∧
    (∀ rest, m.Handle env (COM_QUERY :: rest) =
      .done (handleQuery m env (bytesToString rest))) := by
  refine ⟨rfl, ?_, fun rest => rfl⟩
  intro cmd rest
  simp only [MySqlHandler.Handle, chooseCommand]
  repeat' split
  all_goals rfl

end Mysqlfe
